import Mathlib

/-!
Verification of the tiled3D software-rendering core against its design
specification.  The JavaScript source (vector algebra, fixed-size matrix
algebra, mesh parsing/geometry, and the scene render pipeline) is embedded
shallowly.  Every JS number reached by the executable claims holds a small
integer, so those values are modelled as `ℤ`; values that may be
`undefined`/`NaN` as `Option ℤ` (`none` stands for the non-numeric outcome);
the square-root-dependent parts of the pipeline (magnitude, normalise, the
transform/cull stage of `Mesh.process`) are modelled over `ℝ`.  Exceptions
(`throw`) are modelled with `Option`/`Except`.
-/

/-- A JavaScript numeric value that may be `undefined` or `NaN`: `none`
abstracts both (each is absorbing in arithmetic and falsy in `||`). -/
def JsNum : Type := Option ℤ
deriving DecidableEq

/-- `a + b` on JS values: any non-number operand yields `NaN`. -/
def jsAdd : JsNum → JsNum → JsNum
  | some a, some b => some (a + b)
  | _, _ => none

/-- `a - b` on JS values. -/
def jsSub : JsNum → JsNum → JsNum
  | some a, some b => some (a - b)
  | _, _ => none

/-- `a * b` on JS values. -/
def jsMul : JsNum → JsNum → JsNum
  | some a, some b => some (a * b)
  | _, _ => none

/-- Unary `-a` on JS values. -/
def jsNeg : JsNum → JsNum
  | some a => some (-a)
  | none => none

/-- `x || d` for a JS value that is a number, `undefined` or `NaN`: falsy
(`0`, `NaN`, `undefined`) falls through to the default. -/
def jsOr (x : JsNum) (d : ℤ) : ℤ :=
  match x with
  | some v => if v = 0 then d else v
  | none => d

/-- `l[i]` on a JS array of numeric values: out of range gives `undefined`. -/
def jsGet (l : List JsNum) (i : ℕ) : JsNum :=
  (l.get? i).getD none

/-- `l[i] = x` on a JS array.  In this development the write index is always
produced by `forEach`, hence never exceeds the current length. -/
def jsArraySet {α : Type} (l : List α) (i : ℕ) (x : α) : List α :=
  if i < l.length then l.set i x else l ++ [x]

/-- `v[q]` where `q` is a JS numeric value used as an array index: only a
non-negative integer in range hits an element; anything else (negative,
`NaN`, out of range) gives `undefined` (`none`). -/
def jsIndex {α : Type} (v : List α) (q : JsNum) : Option α :=
  match q with
  | some r => if 0 ≤ r then v.get? r.toNat else none
  | none => none

/-! ## Vector model (source: `src/vector.js`)

`Vector` is an abstract base class; `Vector2`/`Vector3` carry spatial
components `x`, `y` (and `z`) plus the homogeneous `w`.  A `Vector2` instance
has no `z` property, modelled as `z = none`.  The constructor coerces each
supplied spatial argument with `args[i] || 0` and defaults `w` to 1. -/

/-- Dimensionality tag of a vector (`"2d"` / `"3d"` in the source). -/
inductive VType : Type
  | two
  | three
deriving DecidableEq

/-- A spatial component name (`"x"`, `"y"`, `"z"`). -/
inductive Comp : Type
  | x
  | y
  | z
deriving DecidableEq

/-- The `components` list fixed by the `Vector` constructor. -/
def VType.components : VType → List Comp
  | .two => [.x, .y]
  | .three => [.x, .y, .z]

/-- A vector value as the JS objects hold it: type tag, the three possible
spatial properties (`z` is `none` on a `Vector2`), and the homogeneous `w`. -/
structure Vec : Type where
  vtype : VType
  x : JsNum
  y : JsNum
  z : JsNum
  w : ℤ
deriving DecidableEq

/-- Property read `v[c]`. -/
def Vec.getC (v : Vec) : Comp → JsNum
  | .x => v.x
  | .y => v.y
  | .z => v.z

/-- Property write `v[c] = val`. -/
def Vec.setC (v : Vec) : Comp → JsNum → Vec
  | .x, val => { v with x := val }
  | .y, val => { v with y := val }
  | .z, val => { v with z := val }

/-- `new Vector2(x, y, w)`: spatial components coerced with `|| 0`, no `z`
property, `w` defaulting to 1 at call sites. -/
def jsVector2 (x y : JsNum) (w : ℤ) : Vec :=
  { vtype := .two, x := some (jsOr x 0), y := some (jsOr y 0), z := none, w := w }

/-- `new Vector3(x, y, z, w)`: spatial components coerced with `|| 0`, `w`
defaulting to 1 at call sites. -/
def jsVector3 (x y z : JsNum) (w : ℤ) : Vec :=
  { vtype := .three, x := some (jsOr x 0), y := some (jsOr y 0),
    z := some (jsOr z 0), w := w }

/-- `Vector.createVector`: a fresh default vector of the receiver's type,
so every component is 0 and `w = 1`. -/
def Vec.createVector (v : Vec) : Vec :=
  match v.vtype with
  | .two => jsVector2 none none 1
  | .three => jsVector3 none none none 1

/-- `Vector.add`: iterates the *receiver's* component list. -/
def Vec.add (a vec : Vec) : Vec :=
  a.vtype.components.foldl
    (fun res i => res.setC i (jsAdd (a.getC i) (vec.getC i))) a.createVector

/-- `Vector.sub`. -/
def Vec.sub (a vec : Vec) : Vec :=
  a.vtype.components.foldl
    (fun res i => res.setC i (jsSub (a.getC i) (vec.getC i))) a.createVector

/-- `Vector.scale`. -/
def Vec.scale (a : Vec) (s : ℤ) : Vec :=
  a.vtype.components.foldl
    (fun res i => res.setC i (jsMul (a.getC i) (some s))) a.createVector

/-- `Vector.mult` (Hadamard product over the receiver's components). -/
def Vec.mult (a v : Vec) : Vec :=
  a.vtype.components.foldl
    (fun res i => res.setC i (jsMul (a.getC i) (v.getC i))) a.createVector

/-- `Vector.dot`: sum of componentwise products over the receiver's
components, accumulated from `0`. -/
def Vec.dot (a vec : Vec) : JsNum :=
  a.vtype.components.foldl
    (fun sum i => jsAdd sum (jsMul (a.getC i) (vec.getC i))) (some 0)

/-- `Vector3.cross`, exactly as written in the source, including the
`res.y = this.z * vec.x - this.z * vec.z` line. -/
def Vec.cross (a vec : Vec) : Vec :=
  let res := a.createVector
  { res with
      x := jsSub (jsMul a.y vec.z) (jsMul a.z vec.y)
      y := jsSub (jsMul a.z vec.x) (jsMul a.z vec.z)
      z := jsSub (jsMul a.x vec.y) (jsMul a.y vec.x) }

/-- `Vector2.normal` getter: `(-y, x)`. -/
def Vec.normal (a : Vec) : Vec :=
  let res := a.createVector
  { res with x := jsNeg a.y, y := a.x }

/-- Modelled from the spec: the standard right-hand-rule cross product of the
spatial components, used to compare against `Vec.cross`. -/
def crossSpec (a vec : Vec) : Vec :=
  let res := a.createVector
  { res with
      x := jsSub (jsMul a.y vec.z) (jsMul a.z vec.y)
      y := jsSub (jsMul a.z vec.x) (jsMul a.x vec.z)
      z := jsSub (jsMul a.x vec.y) (jsMul a.y vec.x) }

/-! ## Matrix model (source: `src/matrices.js`)

Matrices of side `n` are flat row-major buffers of `n * n` numbers.  The
claims exercised here never index out of range and never hit `NaN`, so cells
are plain integers.  `args[i] || 0` is kept literally via `jsOrI`. -/

/-- `x || d` where `x` is an element access on a plain numeric argument list
(`undefined` when out of range). -/
def jsOrI (x : Option ℤ) (d : ℤ) : ℤ :=
  match x with
  | some v => if v = 0 then d else v
  | none => d

/-- `mat.create(...args)`: an `n * n` buffer whose entry `i` is
`args[i] || 0`. -/
def matCreate (n : ℕ) (args : List ℤ) : List ℤ :=
  (List.range (n * n)).map fun i => jsOrI (args.get? i) 0

/-- `mat.diagonal(...arg)`: start from a zero matrix and write
`arg[i] || 0` at cell `(i, i)`. -/
def matDiagonal (n : ℕ) (args : List ℤ) : List ℤ :=
  (List.range n).foldl
    (fun m i => m.set (i * n + i) (jsOrI (args.get? i) 0)) (matCreate n [])

/-- `mat.identity()`: literally `mat.diagonal(1, 1, 1)` — three ones, for
both the 3×3 and the 4×4 family. -/
def matIdentity (n : ℕ) : List ℤ :=
  matDiagonal n [1, 1, 1]

/-- `mat.multiplyMatrix(m1, m2)`: throws (`none`) when the computed column
and row counts differ, otherwise the standard row-by-column products written
into a fresh zero buffer.  Cell reads stay in range for side-`n` inputs. -/
def matMultiply (n : ℕ) (m1 m2 : List ℤ) : Option (List ℤ) :=
  let column := m1.length / n
  let row := m2.length / n
  if column ≠ row then none
  else
    some <|
      (List.range column).foldl
        (fun c i =>
          (List.range column).foldl
            (fun c j =>
              c.set (i * n + j)
                (((List.range column).map
                  fun k => m1.getD (i * n + k) 0 * m2.getD (k * n + j) 0).sum))
            c)
        (matCreate n [])

/-! ## Render-list depth sort (source: `src/scene.js`, `Scene.render`)

`this.toRaster.sort((a, b) => a.zAverage < b.zAverage)` hands `Array.sort` a
comparator that returns a boolean; ECMAScript coerces it with `ToNumber`, so
it yields `1` or `0` and never a negative number. -/

/-- The fields of a paint record the sort comparator looks at. -/
structure SortRec : Type where
  zAverage : ℚ
deriving DecidableEq

/-- The comparator passed to `toRaster.sort`, after the boolean return value
is coerced by `ToNumber` (`true ↦ 1`, `false ↦ 0`). -/
def toRasterCompare (a b : SortRec) : ℤ :=
  if a.zAverage < b.zAverage then 1 else 0

/-- The sign condition ECMAScript requires of a consistent comparison
function: `c(a,b) > 0` exactly when `c(b,a) < 0`.  `Array.sort` guarantees a
sorted result only for consistent comparators. -/
def IsConsistentCompare (f : SortRec → SortRec → ℤ) : Prop :=
  ∀ a b, 0 < f a b ↔ f b a < 0

/-! ## Mesh source parsing and geometry (source: `src/mesh.js`) -/

/-- `String.prototype.split` with a one-character separator, on the
character list of the string (both separators the source uses, `"\n"` and
`" "`, are single characters). -/
def jsSplitChar (sep : Char) : List Char → List (List Char)
  | [] => [[]]
  | c :: rest =>
      if c = sep then [] :: jsSplitChar sep rest
      else
        match jsSplitChar sep rest with
        | [] => [[c]]
        | piece :: pieces => (c :: piece) :: pieces

/-- Digit-list accumulation for `jsParseFloat`. -/
def digitsVal (l : List Char) : ℤ :=
  l.foldl (fun n c => n * 10 + ((c.toNat : ℤ) - 48)) 0

/-- `parseFloat` as the mesh format uses it: the source texts feed it
non-negative integer numerals, which it parses exactly; anything else here is
conservatively `NaN` (`none`), as is `parseFloat(undefined)`. -/
def jsParseFloat (s : Option (List Char)) : JsNum :=
  match s with
  | some str =>
      if str ≠ [] ∧ str.all Char.isDigit then some (digitsVal str) else none
  | none => none

/-- One pass of `PARSE_MESH_DATA` for a single tag (each tag used is a
one-character string): keep the lines starting with the tag, split each on
single spaces, and parse fields 1..3. -/
def parseTag (data : String) (tag : Char) : List (List JsNum) :=
  ((jsSplitChar '\n' data.data).filter fun item =>
      match item with
      | [] => false
      | c :: _ => c = tag).map
    fun item =>
      let value := jsSplitChar ' ' item
      [jsParseFloat (value.get? 1), jsParseFloat (value.get? 2),
        jsParseFloat (value.get? 3)]

/-- The result of `Mesh.parseWaveFront(data, "v", "f", "c")`. -/
structure ParsedMesh : Type where
  v : List (List JsNum)
  f : List (List JsNum)
  c : List (List JsNum)
deriving DecidableEq

/-- `PARSE_MESH_DATA(data, "v", "f", "c")`. -/
def parseMeshData (data : String) : ParsedMesh :=
  { v := parseTag data 'v', f := parseTag data 'f', c := parseTag data 'c' }

/-- The color record built on a triangle: `h`, `s`, `l` straight from the
parsed color row, `a` via `c[3] || 1`. -/
structure ColorRec : Type where
  h : JsNum
  s : JsNum
  l : JsNum
  a : ℤ
deriving DecidableEq

/-- A `Triangle`: three `Vector3` vertices plus a color record. -/
structure Tri : Type where
  vertices : List Vec
  color : ColorRec
deriving DecidableEq

/-- The `Triangle` constructor branch taken for parsed vertex rows:
`new Vector3(p[0], p[1], p[2])`. -/
def triVertexOf (p : List JsNum) : Vec :=
  jsVector3 (jsGet p 0) (jsGet p 1) (jsGet p 2) 1

/-- A `Mesh` object's state. -/
structure MeshState : Type where
  vertices : List (List JsNum)
  faces : List (List JsNum)
  faceColor : List (List JsNum)
  triangles : List Tri
  scale : Vec
  position : Vec
  rotation : Vec
  showVertex : Bool
  showWireFrame : Bool
  fillShader : Bool
  wireFrameColor : Option String
deriving DecidableEq

/-- The body of the `forEach` in `Mesh.updateGeometry` for face number `i`:
look up the three vertices `v[face[k] - 1]`, build the triangle, and copy the
color fields from `faceColor[i]`.  A missing vertex or missing color row makes
the original throw, modelled as `none`. -/
def mkTriangleFromFace (vertices faceColor : List (List JsNum)) (i : ℕ)
    (face : List JsNum) : Option Tri := do
  let p0 ← jsIndex vertices (jsSub (jsGet face 0) (some 1))
  let p1 ← jsIndex vertices (jsSub (jsGet face 1) (some 1))
  let p2 ← jsIndex vertices (jsSub (jsGet face 2) (some 1))
  let c ← faceColor.get? i
  pure
    { vertices := [triVertexOf p0, triVertexOf p1, triVertexOf p2]
      color :=
        { h := jsGet c 0, s := jsGet c 1, l := jsGet c 2,
          a := jsOr (jsGet c 3) 1 } }

/-- `Mesh.updateGeometry`: for each face overwrite `triangles[i]`; entries
beyond `faces.length` are never touched, and nothing clears the list first. -/
def updateGeometry (m : MeshState) : Option MeshState := do
  let ts ← m.faces.enum.foldlM
    (fun ts p => do
      let tri ← mkTriangleFromFace m.vertices m.faceColor p.1 p.2
      pure (jsArraySet ts p.1 tri))
    m.triangles
  pure { m with triangles := ts }

/-- The `Mesh` constructor: parse the three tag lists, initialise transform
state and render flags, then derive the triangles. -/
def mkMesh (data : String) : Option MeshState :=
  let d := parseMeshData data
  updateGeometry
    { vertices := d.v, faces := d.f, faceColor := d.c, triangles := []
      scale := jsVector3 (some 1) (some 1) (some 1) 1
      position := jsVector3 none none none 1
      rotation := jsVector3 none none none 1
      showVertex := false, showWireFrame := true, fillShader := true
      wireFrameColor := none }

/-! ## Scene membership (source: `src/scene.js`, `Scene.add`) -/

/-- A JS value as `Scene.add` sees it: either a `Mesh` instance or anything
else. -/
inductive JsValue (α : Type) : Type
  | mesh (m : MeshState)
  | other (a : α)

/-- `Scene.add`: throw a `TypeError` before touching `this.objects` when the
argument is not a `Mesh`, otherwise push it.  Returns the error status and the
resulting object list. -/
def sceneAdd {α : Type} (objs : List MeshState) (v : JsValue α) :
    Except String Unit × List MeshState :=
  match v with
  | .mesh m => (Except.ok (), objs ++ [m])
  | .other _ =>
      (Except.error
        "You can only Add an instance of a `Mesh` object to the scene", objs)

/-! ## Real-valued model of the square-root-dependent pipeline

`Vector3.magnitude` (`Math.hypot`), `Vector.normalise` and the transform /
cull / project stage of `Mesh.process` compute with square roots, so they are
modelled over `ℝ`.  The vertices reaching this stage are genuine `Vector3`
values whose components are numbers, so components are plain reals.  Division
by zero never occurs on the code paths analysed below (shown in the proofs);
where the model divides, `ℝ`'s `x / 0 = 0` and the JS `NaN` behaviour agree on
every predicate the code tests. -/

noncomputable section

/-- A `Vector3` whose components are known numbers. -/
structure RVec3 : Type where
  x : ℝ
  y : ℝ
  z : ℝ
  w : ℝ

/-- `Vector3.magnitude`: `Math.hypot(x, y, z)`. -/
def magnitudeR (v : RVec3) : ℝ :=
  Real.sqrt (v.x ^ 2 + v.y ^ 2 + v.z ^ 2)

/-- `Vector.normalise` on a `Vector3`, exactly as executed: `magnitude` is a
getter, so each division uses the magnitude recomputed from the components as
already modified (`x` first, then `y`, then `z`), and the whole block is
skipped when the initial magnitude is 0. -/
def normaliseCodeR (v : RVec3) : RVec3 :=
  if magnitudeR v = 0 then v
  else
    let x1 := v.x / Real.sqrt (v.x ^ 2 + v.y ^ 2 + v.z ^ 2)
    let y1 := v.y / Real.sqrt (x1 ^ 2 + v.y ^ 2 + v.z ^ 2)
    let z1 := v.z / Real.sqrt (x1 ^ 2 + y1 ^ 2 + v.z ^ 2)
    { x := x1, y := y1, z := z1, w := v.w }

/-- `Vector3.cross` on numeric 3D vectors, as written in the source
(including the defective `y` line); the fresh result carries `w = 1`. -/
def crossCodeR (a b : RVec3) : RVec3 :=
  { x := a.y * b.z - a.z * b.y
    y := a.z * b.x - a.z * b.z
    z := a.x * b.y - a.y * b.x
    w := 1 }

/-- `Vector.sub` on numeric 3D vectors: fresh result, `w = 1`. -/
def subR (a b : RVec3) : RVec3 :=
  { x := a.x - b.x, y := a.y - b.y, z := a.z - b.z, w := 1 }

/-- `Vector.add` on numeric 3D vectors: fresh result, `w = 1`. -/
def addR (a b : RVec3) : RVec3 :=
  { x := a.x + b.x, y := a.y + b.y, z := a.z + b.z, w := 1 }

/-- `Vector.mult` on numeric 3D vectors: fresh result, `w = 1`. -/
def multR (a b : RVec3) : RVec3 :=
  { x := a.x * b.x, y := a.y * b.y, z := a.z * b.z, w := 1 }

/-- A 4×4 matrix for the real-valued stage, as the flat cell map `n ↦ m[n]`
(all uses index within `0..15`). -/
def Mat4R : Type := ℕ → ℝ

/-- `Mat4x4.pitchRotation(a)`. -/
def pitchRotationR (a : ℝ) : Mat4R := fun n =>
  if n = 0 then 1
  else if n = 5 then Real.cos a
  else if n = 6 then -Real.sin a
  else if n = 9 then Real.sin a
  else if n = 10 then Real.cos a
  else if n = 15 then 1
  else 0

/-- `Mat4x4.rollRotation(a)`. -/
def rollRotationR (a : ℝ) : Mat4R := fun n =>
  if n = 0 then Real.cos a
  else if n = 1 then -Real.sin a
  else if n = 4 then Real.sin a
  else if n = 5 then Real.cos a
  else if n = 10 then 1
  else if n = 15 then 1
  else 0

/-- `Mat4x4.multiplyMatrix` for two full 4×4 matrices. -/
def matMul4R (m1 m2 : Mat4R) : Mat4R := fun n =>
  if n < 16 then
    ((List.range 4).map fun k => m1 (n / 4 * 4 + k) * m2 (k * 4 + n % 4)).sum
  else 0

/-- `Mat4x4.multiplyVector` for a full 4×4 matrix and a `Vector3`:
`toArray` gives `[x, y, z, w]`, each output row is the dot product with it,
and the result is `new Vector3(res[0], res[1], res[2], res[3])` (the `|| 0`
coercion in the constructor is the identity on real numbers). -/
def matMulVec4R (m : Mat4R) (v : RVec3) : RVec3 :=
  { x := m 0 * v.x + m 1 * v.y + m 2 * v.z + m 3 * v.w
    y := m 4 * v.x + m 5 * v.y + m 6 * v.z + m 7 * v.w
    z := m 8 * v.x + m 9 * v.y + m 10 * v.z + m 11 * v.w
    w := m 12 * v.x + m 13 * v.y + m 14 * v.z + m 15 * v.w }

/-- A triangle entering `Mesh.process`. -/
structure RTri : Type where
  v0 : RVec3
  v1 : RVec3
  v2 : RVec3
  color : ColorRec

/-- A paint record pushed onto `scene.toRaster`. -/
structure RPaintRecord : Type where
  vertices : List RVec3
  zAverage : ℝ
  alpha : ℝ
  color : ColorRec
  showVertex : Bool
  showWireFrame : Bool
  fillShader : Bool
  wireFrameColor : Option String

/-- The per-vertex transform in `Mesh.process`: scale componentwise, then
translate, then rotate with the combined matrix. -/
def transformVertR (scl pos : RVec3) (mRotate : Mat4R) (vertex : RVec3) :
    RVec3 :=
  matMulVec4R mRotate (addR (multR vertex scl) pos)

/-- The projection step of `Mesh.process`: multiply by the scene's projection
matrix, then map to viewport pixels. -/
def projectVertR (proj : Mat4R) (width height : ℝ) (t : RVec3) : RVec3 :=
  let p := matMulVec4R proj t
  { p with x := (p.x + 1) * (width * 0.5), y := (p.y + 1) * (height * 0.5) }

/-- The body of the main triangle loop of `Mesh.process`: transform the three
vertices, take `normalise(cross(v1 - v0, v2 - v0))` with the source's `cross`
and `normalise`, and emit a paint record exactly when its `z` is negative. -/
def processTriR (scl pos : RVec3) (mRotate proj : Mat4R) (width height : ℝ)
    (sv swf fs : Bool) (wfc : Option String) (tri : RTri) :
    Option RPaintRecord :=
  let t0 := transformVertR scl pos mRotate tri.v0
  let t1 := transformVertR scl pos mRotate tri.v1
  let t2 := transformVertR scl pos mRotate tri.v2
  let cross := normaliseCodeR (crossCodeR (subR t1 t0) (subR t2 t0))
  if cross.z < 0 then
    some
      { vertices :=
          [projectVertR proj width height t0, projectVertR proj width height t1,
            projectVertR proj width height t2]
        zAverage := (t0.z + t1.z + t2.z) / 3
        alpha := 1
        color := tri.color
        showVertex := sv, showWireFrame := swf, fillShader := fs
        wireFrameColor := wfc }
  else none

/-- `Mesh.process` restricted to what it appends to `scene.toRaster`: one
record per surviving triangle, in order. -/
def processListR (scl pos : RVec3) (mRotate proj : Mat4R) (width height : ℝ)
    (sv swf fs : Bool) (wfc : Option String) (tris : List RTri) :
    List RPaintRecord :=
  tris.filterMap (processTriR scl pos mRotate proj width height sv swf fs wfc)

/-- Modelled from the spec: the standard right-hand-rule cross product. -/
def crossSpecR (a b : RVec3) : RVec3 :=
  { x := a.y * b.z - a.z * b.y
    y := a.z * b.x - a.x * b.z
    z := a.x * b.y - a.y * b.x
    w := 1 }

/-- Modelled from the spec: `normalise(v)` divides every spatial component by
the (one) magnitude of `v`, and is a no-op when that magnitude is 0. -/
def normaliseSpecR (v : RVec3) : RVec3 :=
  if magnitudeR v = 0 then v
  else { x := v.x / magnitudeR v, y := v.y / magnitudeR v,
         z := v.z / magnitudeR v, w := v.w }

/-- Modelled from the spec: the `z` component of the transformed face normal
`normalise(cross(v1 - v0, v2 - v0))`. -/
def specFaceNormalZ (w0 w1 w2 : RVec3) : ℝ :=
  (normaliseSpecR (crossSpecR (subR w1 w0) (subR w2 w0))).z

end

/-! ## Concrete inputs used by the claims -/

/-- The minimal mesh source text of the round-trip property. -/
def c9src : String := "v 0 0 0\nv 1 0 0\nv 0 1 0\nf 1 2 3\nc 120 50 50"

/-- A two-face mesh source text, used to exercise `updateGeometry` after a
face has been removed. -/
def c5src : String :=
  "v 0 0 0\nv 1 0 0\nv 0 1 0\nf 1 2 3\nf 3 2 1\nc 120 50 50\nc 10 20 30"

/-! ## Helper lemmas -/

theorem jsAdd_none_right (s : JsNum) : jsAdd s none = none := by
  cases s <;> rfl

theorem jsMul_none_right (s : JsNum) : jsMul s none = none := by
  cases s <;> rfl

theorem jsSub_none_right (s : JsNum) : jsSub s none = none := by
  cases s <;> rfl

theorem div_sqrt_z_sign (a b z : ℝ) :
    z / Real.sqrt (a ^ 2 + b ^ 2 + z ^ 2) < 0 ↔ z < 0 := by
  constructor
  · intro h
    by_contra hz
    push_neg at hz
    exact absurd h (not_lt.mpr (div_nonneg hz (Real.sqrt_nonneg _)))
  · intro hz
    have habs : (0 : ℝ) < |z| := abs_pos.mpr (ne_of_lt hz)
    have h1 : Real.sqrt (z ^ 2) ≤ Real.sqrt (a ^ 2 + b ^ 2 + z ^ 2) :=
      Real.sqrt_le_sqrt (by nlinarith [sq_nonneg a, sq_nonneg b])
    rw [Real.sqrt_sq_eq_abs] at h1
    exact div_neg_of_neg_of_pos hz (lt_of_lt_of_le habs h1)

theorem norm_code_z_sign (v : RVec3) :
    (normaliseCodeR v).z < 0 ↔ v.z < 0 := by
  unfold normaliseCodeR
  split
  · exact Iff.rfl
  · exact div_sqrt_z_sign _ _ _

theorem norm_spec_z_sign (v : RVec3) :
    (normaliseSpecR v).z < 0 ↔ v.z < 0 := by
  unfold normaliseSpecR magnitudeR
  split
  · exact Iff.rfl
  · exact div_sqrt_z_sign _ _ _

theorem cross_z_code_eq_spec (a b : RVec3) :
    (crossSpecR a b).z = (crossCodeR a b).z := rfl

/-! ## Claims -/

/-- C1: `Vector3.cross` is not the standard right-hand-rule cross product —
its `y` line computes `this.z * vec.x - this.z * vec.z` — and the result is
not orthogonal to the operands: at `a = (1,2,3)`, `b = (4,5,6)` the code
yields `(-3,-6,-3)` (the standard product is `(-3,6,-3)`) and
`cross(a,b) · a = -24 ≠ 0`. -/
theorem cross_code_defect :
    Vec.cross (jsVector3 (some 1) (some 2) (some 3) 1)
        (jsVector3 (some 4) (some 5) (some 6) 1) =
      { vtype := .three, x := some (-3), y := some (-6), z := some (-3),
        w := 1 } ∧
    Vec.dot
        (Vec.cross (jsVector3 (some 1) (some 2) (some 3) 1)
          (jsVector3 (some 4) (some 5) (some 6) 1))
        (jsVector3 (some 1) (some 2) (some 3) 1) = some (-24) ∧
    Vec.cross (jsVector3 (some 1) (some 2) (some 3) 1)
        (jsVector3 (some 4) (some 5) (some 6) 1) ≠
      crossSpec (jsVector3 (some 1) (some 2) (some 3) 1)
        (jsVector3 (some 4) (some 5) (some 6) 1) := by
  decide

/-- C3: for the 4×4 family `identity()` is `diagonal(1,1,1)`, so its last
main-diagonal cell is 0 rather than 1, and it is not a right identity:
multiplying `diagonal(1,1,1,1)` by it zeroes the last diagonal cell. -/
theorem identity4_code_defect :
    (matIdentity 4).getD 15 0 = 0 ∧
    matMultiply 4 (matDiagonal 4 [1, 1, 1, 1]) (matIdentity 4) =
      some (matDiagonal 4 [1, 1, 1, 0]) ∧
    matMultiply 4 (matDiagonal 4 [1, 1, 1, 1]) (matIdentity 4) ≠
      some (matDiagonal 4 [1, 1, 1, 1]) := by
  decide

/-- C4: the comparator `render()` hands to `toRaster.sort` returns a boolean,
which `ToNumber` coerces to `1`/`0`: it never returns a negative number, it
reports the pair (zAverage 5, zAverage 1) as tied while reporting the swapped
pair as strictly ordered, and it is not a consistent comparison function — so
`Array.sort` gives no sortedness guarantee and the farthest-first painting
order the claim requires is not established. -/
theorem depth_sort_comparator_code_defect :
    toRasterCompare ⟨1⟩ ⟨5⟩ = 1 ∧ toRasterCompare ⟨5⟩ ⟨1⟩ = 0 ∧
    (∀ a b, ¬ toRasterCompare a b < 0) ∧
    ¬ IsConsistentCompare toRasterCompare := by
  refine ⟨by decide, by decide, ?_, ?_⟩
  · intro a b
    unfold toRasterCompare
    split <;> omega
  · intro h
    have h15 := (h ⟨1⟩ ⟨5⟩).mp (by decide)
    exact absurd h15 (by decide)

/-- C7: `Scene.add` appends a `Mesh` argument to the object list and throws a
`TypeError` on any non-`Mesh` value, leaving the object list unchanged. -/
theorem scene_add_mesh_guard :
    ∀ (α : Type) (objs : List MeshState) (m : MeshState) (a : α),
      sceneAdd objs (JsValue.mesh m : JsValue α) =
        (Except.ok (), objs ++ [m]) ∧
      sceneAdd objs (JsValue.other a) =
        (Except.error
          "You can only Add an instance of a `Mesh` object to the scene",
          objs) := by
  intro α objs m a
  exact ⟨rfl, rfl⟩

/-- C9: the mesh built from the minimal source text has exactly one triangle,
its vertices are `(0,0,0)`, `(1,0,0)`, `(0,1,0)` in that order (face indices
are 1-based), and its color is hue 120, saturation 50, lightness 50 with
alpha defaulting to 1. -/
theorem mesh_roundtrip_minimal :
    (mkMesh c9src).map MeshState.triangles =
      some
        [{ vertices :=
            [jsVector3 (some 0) (some 0) (some 0) 1,
              jsVector3 (some 1) (some 0) (some 0) 1,
              jsVector3 (some 0) (some 1) (some 0) 1]
           color := { h := some 120, s := some 50, l := some 50, a := 1 } }] := by
  decide

/-- C5: `updateGeometry` does not rebuild the triangle list from scratch:
after removing the second of two faces and re-calling it, the stale triangle
derived from the removed face `f 3 2 1` (color `c 10 20 30`) is still at
index 1, and `triangles.length = 2 ≠ 1 = faces.length`. -/
theorem updateGeometry_stale_code_defect :
    (((mkMesh c5src).bind fun m0 =>
          updateGeometry { m0 with faces := m0.faces.take 1 }).map
        fun m => (m.triangles.length, m.faces.length)) = some (2, 1) ∧
    (((mkMesh c5src).bind fun m0 =>
          updateGeometry { m0 with faces := m0.faces.take 1 }).map
        fun m => m.triangles.get? 1) =
      some
        (some
          { vertices :=
              [jsVector3 (some 0) (some 1) (some 0) 1,
                jsVector3 (some 1) (some 0) (some 0) 1,
                jsVector3 (some 0) (some 0) (some 0) 1]
            color := { h := some 10, s := some 20, l := some 30, a := 1 } }) := by
  decide

/-- C2: `Vector.normalise` does not produce a unit vector: `magnitude` is a
live getter, so after `x` is divided the divisors used for `y` and `z` are
already wrong.  On the 3D vector `(3, 4, 0)` the resulting magnitude squared
is `13681/10225 ≈ 1.338`, so the magnitude is not 1 (nor approximately 1). -/
theorem normalise_code_defect :
    magnitudeR (normaliseCodeR ⟨3, 4, 0, 1⟩) ^ 2 = 13681 / 10225 ∧
    magnitudeR (normaliseCodeR ⟨3, 4, 0, 1⟩) ≠ 1 := by
  have h0 : Real.sqrt ((3 : ℝ) ^ 2 + 4 ^ 2 + 0 ^ 2) = 5 := by
    rw [show ((3 : ℝ) ^ 2 + 4 ^ 2 + 0 ^ 2) = 5 ^ 2 by norm_num]
    exact Real.sqrt_sq (by norm_num)
  have hne : magnitudeR ⟨3, 4, 0, 1⟩ ≠ 0 := by
    simp only [magnitudeR]
    rw [h0]
    norm_num
  have hstep : normaliseCodeR ⟨3, 4, 0, 1⟩ =
      ⟨3 / 5, 4 / Real.sqrt ((3 / 5 : ℝ) ^ 2 + 4 ^ 2 + 0 ^ 2), 0, 1⟩ := by
    rw [normaliseCodeR, if_neg hne]
    simp only [h0]
    norm_num
  have hsq : magnitudeR (normaliseCodeR ⟨3, 4, 0, 1⟩) ^ 2 = 13681 / 10225 := by
    rw [hstep]
    simp only [magnitudeR]
    rw [Real.sq_sqrt (by positivity)]
    have hy : ((4 : ℝ) / Real.sqrt ((3 / 5) ^ 2 + 4 ^ 2 + 0 ^ 2)) ^ 2 =
        16 / ((3 / 5 : ℝ) ^ 2 + 4 ^ 2 + 0 ^ 2) := by
      rw [div_pow, Real.sq_sqrt (by positivity)]
      norm_num
    rw [hy]
    norm_num
  refine ⟨hsq, fun h1 => ?_⟩
  rw [h1] at hsq
  norm_num at hsq

/-- C6: the main loop of `Mesh.process` emits a paint record exactly when the
`z` component of the spec's transformed face normal
`normalise(cross(v1 - v0, v2 - v0))` is negative — the source's cull test uses
its own (defective) `cross` and sequential `normalise`, but their `z` sign
agrees with the standard normal's `z` sign on every input. -/
theorem process_cull_iff :
    ∀ (scl pos : RVec3) (mRotate proj : Mat4R) (width height : ℝ)
      (sv swf fs : Bool) (wfc : Option String) (tri : RTri),
      (processTriR scl pos mRotate proj width height sv swf fs wfc tri).isSome
          = true ↔
        specFaceNormalZ (transformVertR scl pos mRotate tri.v0)
          (transformVertR scl pos mRotate tri.v1)
          (transformVertR scl pos mRotate tri.v2) < 0 := by
  intro scl pos mRotate proj width height sv swf fs wfc tri
  simp only [processTriR, specFaceNormalZ]
  rw [norm_spec_z_sign, cross_z_code_eq_spec]
  split_ifs with hc
  · simp only [Option.isSome_some, true_iff]
    exact (norm_code_z_sign _).mp hc
  · simp only [Option.isSome_none, Bool.false_eq_true, false_iff, not_lt]
    exact le_of_not_lt fun hs => hc ((norm_code_z_sign _).mpr hs)

/-- C8 (counterexample): no vector operation checks dimensionality.  Adding a
3D vector to a 2D receiver returns an ordinary 2D result with the `z`
component silently dropped; with a 3D receiver the missing `z` propagates as
`NaN`; `dot` likewise returns a plain truncated sum or `NaN` — no error is
ever raised. -/
theorem vec_mixed_dim_counterexample :
    Vec.add (jsVector2 (some 1) (some 2) 1)
        (jsVector3 (some 1) (some 2) (some 3) 1) =
      { vtype := .two, x := some 2, y := some 4, z := none, w := 1 } ∧
    (Vec.add (jsVector3 (some 1) (some 2) (some 3) 1)
        (jsVector2 (some 1) (some 2) 1)).z = none ∧
    Vec.dot (jsVector2 (some 1) (some 2) 1)
        (jsVector3 (some 1) (some 2) (some 3) 1) = some 5 ∧
    Vec.dot (jsVector3 (some 1) (some 2) (some 3) 1)
        (jsVector2 (some 1) (some 2) 1) = none := by
  decide

/-- C8 (amended): for `add`, `sub`, `mult` and `dot` on mixed 2D/3D operands
the code performs no dimensionality check and throws nothing: a 2D receiver
silently ignores the argument's `z` (a 2D result), and a 3D receiver reads
the 2D argument's missing `z` as `undefined`, yielding a `NaN` `z` component
(for `dot`, a `NaN` scalar). -/
theorem vec_mixed_dim_amended :
    ∀ (ax ay az bx b2y bz : JsNum) (aw bw : ℤ),
      (Vec.add ⟨.two, ax, ay, none, aw⟩ ⟨.three, bx, b2y, bz, bw⟩ =
        ⟨.two, jsAdd ax bx, jsAdd ay b2y, none, 1⟩) ∧
      (Vec.add ⟨.three, ax, ay, az, aw⟩ ⟨.two, bx, b2y, none, bw⟩ =
        ⟨.three, jsAdd ax bx, jsAdd ay b2y, none, 1⟩) ∧
      (Vec.sub ⟨.two, ax, ay, none, aw⟩ ⟨.three, bx, b2y, bz, bw⟩ =
        ⟨.two, jsSub ax bx, jsSub ay b2y, none, 1⟩) ∧
      (Vec.sub ⟨.three, ax, ay, az, aw⟩ ⟨.two, bx, b2y, none, bw⟩ =
        ⟨.three, jsSub ax bx, jsSub ay b2y, none, 1⟩) ∧
      (Vec.mult ⟨.two, ax, ay, none, aw⟩ ⟨.three, bx, b2y, bz, bw⟩ =
        ⟨.two, jsMul ax bx, jsMul ay b2y, none, 1⟩) ∧
      (Vec.mult ⟨.three, ax, ay, az, aw⟩ ⟨.two, bx, b2y, none, bw⟩ =
        ⟨.three, jsMul ax bx, jsMul ay b2y, none, 1⟩) ∧
      (Vec.dot ⟨.two, ax, ay, none, aw⟩ ⟨.three, bx, b2y, bz, bw⟩ =
        jsAdd (jsAdd (some 0) (jsMul ax bx)) (jsMul ay b2y)) ∧
      (Vec.dot ⟨.three, ax, ay, az, aw⟩ ⟨.two, bx, b2y, none, bw⟩ = none) := by
  intro ax ay az bx b2y bz aw bw
  refine ⟨?_, ?_, ?_, ?_, ?_, ?_, rfl, ?_⟩
  · simp [Vec.add, VType.components, Vec.createVector, Vec.getC, Vec.setC,
      jsVector2]
  · simp [Vec.add, VType.components, Vec.createVector, Vec.getC, Vec.setC,
      jsVector3, jsAdd_none_right]
  · simp [Vec.sub, VType.components, Vec.createVector, Vec.getC, Vec.setC,
      jsVector2]
  · simp [Vec.sub, VType.components, Vec.createVector, Vec.getC, Vec.setC,
      jsVector3, jsSub_none_right]
  · simp [Vec.mult, VType.components, Vec.createVector, Vec.getC, Vec.setC,
      jsVector2]
  · simp [Vec.mult, VType.components, Vec.createVector, Vec.getC, Vec.setC,
      jsVector3, jsMul_none_right]
  · simp [Vec.dot, VType.components, Vec.getC, jsMul_none_right,
      jsAdd_none_right]

/-- C10: every vector operation that returns a new vector (`add`, `sub`,
`scale`, `mult`, `cross`, and the 2D `normal`) creates the result with
`createVector`, whose constructor defaults `w` to 1 and which no operation
ever overwrites — so the result's `w` is 1 whatever the operands' `w`. -/
theorem fresh_result_w_eq_one :
    ∀ (a b : Vec) (s : ℤ),
      (Vec.add a b).w = 1 ∧ (Vec.sub a b).w = 1 ∧ (Vec.scale a s).w = 1 ∧
      (Vec.mult a b).w = 1 ∧ (Vec.cross a b).w = 1 ∧ (Vec.normal a).w = 1 := by
  intro a b s
  obtain ⟨t, ax, ay, az, aw⟩ := a
  cases t <;> exact ⟨rfl, rfl, rfl, rfl, rfl, rfl⟩
